import Mathlib

/-!
# nmpolicy: `GenerateState`

A shallow embedding of `nmpolicy/operations.go` (the function `GenerateState`)
and of the helper `resetTimeStamp` of `tests/basic_test.go`, followed by the
properties of the generated state.

Conventions of the embedding:

* a Go slice `[]byte` is `Option (List Byte)`: `none` is the nil slice and
  `some l` a non-nil slice holding the bytes `l` (capacity is not observable
  by the program and is left out);
* a Go `map[string]V` is `Option (List (String × V))`: `none` is the nil map
  and `some kvs` a non-nil map; a lookup takes the first binding of the key.
  The order of the list is not part of the Go value: two maps are compared
  with `mapEqual` (same bindings), not with `=`;
* a Go result `(T, error)` is `Except Error T`;
* the wall clock is an explicit argument `now`: the value that the single
  call `time.Now()` in the body of `GenerateState` returns.
-/

set_option linter.unusedVariables false

namespace NMPolicy

/-! ## Go values -/

/-- A Go `byte`. -/
abbrev Byte := Fin 256

/-- A Go `[]byte`: the nil slice or a non-nil slice with its contents. -/
abbrev Slice := Option (List Byte)

/-- The bytes held by a slice (none for the nil slice). -/
def sliceBytes (s : Slice) : List Byte :=
  match s with
  | none => []
  | some l => l

/-- Go `len(s)`. -/
def sliceLen (s : Slice) : Nat := (sliceBytes s).length

/-- Go `append(s, elems...)`: appending no element returns `s` itself (a nil
slice stays nil); appending at least one element returns a non-nil slice
holding the old contents followed by the new ones. -/
def goAppend (s : Slice) (elems : List Byte) : Slice :=
  match elems with
  | [] => s
  | e :: es => some (sliceBytes s ++ e :: es)

/-- Go `[]byte(str)`: the UTF-8 encoding of a string, as a non-nil slice. -/
def bytesOf (str : String) : Slice :=
  some (str.data.flatMap (fun c => (String.utf8EncodeChar c).map (fun b => b.val)))

/-- A Go `map[string]V`: the nil map or a non-nil map with its bindings. -/
abbrev GoMap (V : Type) := Option (List (String × V))

/-- Go `v, ok := m[k]`; reading a nil map finds nothing. -/
def mapLookup {V : Type} (m : GoMap V) (k : String) : Option V :=
  match m with
  | none => none
  | some kvs => kvs.lookup k

/-- Go `len(m)`. -/
def mapLen {V : Type} (m : GoMap V) : Nat :=
  match m with
  | none => 0
  | some kvs => kvs.length

/-- The keys of a map. -/
def mapKeys {V : Type} (m : GoMap V) : List String :=
  match m with
  | none => []
  | some kvs => kvs.map Prod.fst

/-- Equality of two Go maps as values: every key is bound to the same value
in both, whatever the order in which the bindings are listed. A nil map and
an empty map have the same bindings. -/
def mapEqual {V : Type} [DecidableEq V] (m1 m2 : GoMap V) : Bool :=
  (mapKeys m1 ++ mapKeys m2).all (fun k => decide (mapLookup m1 k = mapLookup m2 k))

/-- Go `bytes.Equal(a, b)`: the same bytes in the same order; a nil slice and
an empty slice are equal. -/
def bytesEqual (a b : Slice) : Bool := decide (sliceBytes a = sliceBytes b)

/-- Go `error`, reduced to its message. -/
abbrev Error := String

/-! ## `time.Time` of the Go standard library -/

/-- A `time.Time`: an instant (seconds since January 1, year 1, 00:00:00 UTC
and nanoseconds within the second), an optional monotonic clock reading and a
location pointer, where `none` is the nil pointer, which means UTC. -/
structure Time where
  sec : Int
  nsec : Nat
  mono : Option Int
  loc : Option String
deriving DecidableEq

namespace Time

/-- The zero value `time.Time{}`. -/
def zero : Time := { sec := 0, nsec := 0, mono := none, loc := none }

/-- `t.UTC()`: the same instant with the location set to UTC; setting the
location strips the monotonic clock reading. -/
def UTC (t : Time) : Time := { t with mono := none, loc := none }

/-- `t.IsZero()`: whether `t` is the zero time instant. -/
def IsZero (t : Time) : Bool := t.sec == 0 && t.nsec == 0

/-- `t.Equal(u)`: whether `t` and `u` are the same instant. When both carry a
monotonic clock reading the readings are compared, otherwise the seconds and
nanoseconds of the instants. -/
def Equal (t u : Time) : Bool :=
  match t.mono, u.mono with
  | some a, some b => a == b
  | _, _ => t.sec == u.sec && t.nsec == u.nsec

end Time

/-! ## Types of the policy -/

/-- Modelled from the spec: the type `NMState` is declared outside the two
source files; `GenerateState` appends bytes to it and the tests assign
`[]byte` values to it, so it is a byte slice. -/
abbrev NMState := Slice

/-- Modelled from the spec: `MetaInfo{Version: string, TimeStamp: instant}`,
with the field names that `GenerateState` uses. -/
structure MetaInfo where
  Version : String
  TimeStamp : Time
deriving DecidableEq

/-- Modelled from the spec: `CaptureState{State: bytes, MetaInfo}`, with the
field names that the tests use. -/
structure CaptureState where
  State : NMState
  MetaInfo : MetaInfo
deriving DecidableEq

/-- Modelled from the spec: `CachedState{Capture: map of capture name to
CaptureState}`. -/
structure CachedState where
  Capture : GoMap CaptureState
deriving DecidableEq

/-- Modelled from the spec: `PolicySpec{Capture: map of capture name to
expression, DesiredState: bytes or nil}`. -/
structure PolicySpec where
  Capture : GoMap String
  DesiredState : NMState
deriving DecidableEq

/-- Modelled from the spec: `GeneratedState{Cache, DesiredState, MetaInfo}`,
with the field names that `GenerateState` uses. -/
structure GeneratedState where
  Cache : CachedState
  DesiredState : NMState
  MetaInfo : MetaInfo
deriving DecidableEq

/-- The zero value `MetaInfo{}`. -/
def MetaInfo.zeroValue : MetaInfo := { Version := "", TimeStamp := Time.zero }

/-- The zero value `CaptureState{}`. -/
def CaptureState.zeroValue : CaptureState := { State := none, MetaInfo := MetaInfo.zeroValue }

/-- The zero value `CachedState{}`. -/
def CachedState.zeroValue : CachedState := { Capture := none }

/-- The zero value `PolicySpec{}`. -/
def PolicySpec.zeroValue : PolicySpec := { Capture := none, DesiredState := none }

/-- Go `m[k]` on a map of capture states: the zero value when `k` is absent. -/
def captureIndex (m : GoMap CaptureState) (k : String) : CaptureState :=
  match mapLookup m k with
  | some v => v
  | none => CaptureState.zeroValue

/-- Modelled from the spec: the helper `NoCache()` is declared outside the two
source files. The spec writes the empty cache as `Cache: {}` and the test
`testEmptyPolicy` expects the `Cache` that `GenerateState` returns to be
deeply equal to the zero `CachedState`, so `NoCache()` is the zero value. -/
def NoCache : CachedState := CachedState.zeroValue

/-! ## `nmpolicy/operations.go` -/

/-- The function `GenerateState` of `operations.go`. The argument `now` is the
value returned by the call `time.Now()` in its body. -/
def GenerateState (nmpolicy : PolicySpec) (currentState : NMState) (cache : CachedState)
    (now : Time) : Except Error GeneratedState :=
  let desiredState : NMState := none
  let desiredState : NMState :=
    match nmpolicy.DesiredState with
    | some src => goAppend desiredState src
    | none => desiredState
  Except.ok
    { Cache := NoCache
      DesiredState := desiredState
      MetaInfo := { Version := "0", TimeStamp := now.UTC } }

/-! ## `tests/basic_test.go` -/

/-- The helper `resetTimeStamp` of `basic_test.go`: sets the top-level time
stamp and the time stamp of every cached capture to the zero time. -/
def resetTimeStamp (generatedState : GeneratedState) : GeneratedState :=
  let generatedState : GeneratedState :=
    { generatedState with MetaInfo := { generatedState.MetaInfo with TimeStamp := Time.zero } }
  { generatedState with
    Cache :=
      { Capture :=
          generatedState.Cache.Capture.map
            (List.map (fun kv => (kv.1, { kv.2 with MetaInfo := { kv.2.MetaInfo with TimeStamp := Time.zero } }))) } }

/-! ## Capture expressions -/

/-- Modelled from the spec: the expression parser is not part of the two
source files. The spec lists unbalanced quotes among the malformed
expressions that fail with `ParseError`; the quoted literal has no escaping,
so the quotes of an expression are unbalanced when their number is odd. -/
def unbalancedQuotes (expr : String) : Bool :=
  (expr.data.filter (fun c => c == '"')).length % 2 == 1

/-! ## Inputs of `tests/basic_test.go` -/

/-- The `stateData` of `testPolicyWithOnlyDesiredState` and of
`testPolicyWithCachedCaptureAndDesiredStateWithoutRef`. -/
def notYamlData : NMState := bytesOf "this is not a legal yaml format!\n"

/-- The `stateData` of `testPolicyWithFilterCaptureAndDesiredStateWithoutRef`:
two routes under `routes.running`. -/
def twoRoutesData : NMState :=
  bytesOf ("routes:\n  running:\n"
    ++ "  - destination: 0.0.0.0/0\n    next-hop-address: 192.168.100.1\n"
    ++ "    next-hop-interface: eth1\n    table-id: 254\n"
    ++ "  - destination: 1.1.1.0/24\n    next-hop-address: 192.168.100.1\n"
    ++ "    next-hop-interface: eth1\n    table-id: 254\n")

/-- The `stateData` of `testGenerateUniqueTimestamps`: one route. -/
def oneRouteData : NMState :=
  bytesOf ("routes:\n  running:\n"
    ++ "  - destination: 0.0.0.0/0\n    next-hop-address: 192.168.100.1\n"
    ++ "    next-hop-interface: eth1\n    table-id: 254\n")

/-- The capture expression `routes.running.destination=="0.0.0.0/0"`. -/
def defaultRouteExpr : String := "routes.running.destination==\"0.0.0.0/0\""

/-- The policy of `testPolicyWithCachedCaptureAndDesiredStateWithoutRef`. -/
def cachedCaptureSpec : PolicySpec :=
  { Capture := some [("cap0", "my expression")], DesiredState := notYamlData }

/-- The `cacheState` of `testPolicyWithCachedCaptureAndDesiredStateWithoutRef`. -/
def cachedCaptureCache : CachedState :=
  { Capture := some [("cap0", { State := bytesOf "some captured state", MetaInfo := MetaInfo.zeroValue })] }

/-- The policy of `testPolicyWithFilterCaptureAndDesiredStateWithoutRef`. -/
def filterCaptureSpec : PolicySpec :=
  { Capture := some [("cap0", defaultRouteExpr)], DesiredState := twoRoutesData }

/-- The policy of `testGenerateUniqueTimestamps`. -/
def uniqueTimestampsSpec : PolicySpec :=
  { Capture := some [("cap0", defaultRouteExpr), ("cap1", "routes.running.destination==\"1.1.1.1/0\"")]
    DesiredState := oneRouteData }

/-- The policy of `testGenerateUniqueTimestamps` with the bindings of its
capture map listed in the other order: the same Go map. -/
def uniqueTimestampsSpecSwapped : PolicySpec :=
  { Capture := some [("cap1", "routes.running.destination==\"1.1.1.1/0\""), ("cap0", defaultRouteExpr)]
    DesiredState := oneRouteData }

/-- A clock reading of `time.Now()`: local time with a monotonic reading. -/
def sampleNow : Time := { sec := 63771580800, nsec := 250, mono := some 1000000, loc := some "Local" }

/-- A clock reading taken before `sampleNow`. -/
def sampleEarlier : Time := { sec := 63771580799, nsec := 900, mono := some 999000, loc := some "Local" }

/-- The `cacheState` of `testGenerateUniqueTimestamps`: `cap1` is cached. -/
def uniqueTimestampsCache : CachedState :=
  { Capture := some [("cap1", { State := bytesOf "\x7b\x7d", MetaInfo := { Version := "333", TimeStamp := sampleEarlier } })] }

/-- A policy with one capture whose expression lacks the closing quote and one
capture with a valid expression. -/
def malformedCaptureSpec : PolicySpec :=
  { Capture := some [("cap0", "routes.running.destination==\"0.0.0.0/0"), ("cap1", defaultRouteExpr)]
    DesiredState := twoRoutesData }

/-! ## Properties of the Go values -/

theorem sliceBytes_goAppend_nil (elems : List Byte) : sliceBytes (goAppend none elems) = elems := by
  cases elems <;> rfl

theorem goAppend_nil_eq_none (elems : List Byte) : goAppend none elems = none ↔ elems = [] := by
  cases elems <;> simp [goAppend]

theorem goAppend_nil_cons (e : Byte) (es : List Byte) : goAppend none (e :: es) = some (e :: es) := rfl

theorem mapLookup_eq_none_of_not_mem {V : Type} (m : GoMap V) (k : String) (h : k ∉ mapKeys m) :
    mapLookup m k = none := by
  cases m with
  | none => rfl
  | some kvs =>
    show kvs.lookup k = none
    rw [List.lookup_eq_none_iff]
    intro p hp
    rw [bne_iff_ne]
    intro hk
    apply h
    show k ∈ kvs.map Prod.fst
    rw [List.mem_map]
    exact ⟨p, hp, hk.symm⟩

/-- Two maps are `mapEqual` exactly when every key has the same lookup in both. -/
theorem mapEqual_iff {V : Type} [DecidableEq V] (m1 m2 : GoMap V) :
    mapEqual m1 m2 = true ↔ ∀ k, mapLookup m1 k = mapLookup m2 k := by
  unfold mapEqual
  rw [List.all_eq_true]
  constructor
  · intro h k
    by_cases hk : k ∈ mapKeys m1 ++ mapKeys m2
    · exact of_decide_eq_true (h k hk)
    · rw [List.mem_append, not_or] at hk
      rw [mapLookup_eq_none_of_not_mem m1 k hk.1, mapLookup_eq_none_of_not_mem m2 k hk.2]
  · intro h k _
    exact decide_eq_true (h k)

theorem bytesEqual_iff (a b : Slice) : bytesEqual a b = true ↔ sliceBytes a = sliceBytes b := by
  simp [bytesEqual]

theorem Time.IsZero_UTC (t : Time) : t.UTC.IsZero = t.IsZero := rfl

theorem Time.Equal_UTC (t : Time) : t.UTC.Equal t = true := by
  simp [Time.Equal, Time.UTC]

theorem Time.IsZero_zero : Time.zero.IsZero = true := rfl

/-! ## Properties of `GenerateState` -/

/-- The desired state that `GenerateState` builds from the one of the policy. -/
theorem GenerateState_eq (nmpolicy : PolicySpec) (currentState : NMState) (cache : CachedState)
    (now : Time) :
    GenerateState nmpolicy currentState cache now =
      Except.ok
        { Cache := NoCache
          DesiredState := goAppend none (sliceBytes nmpolicy.DesiredState)
          MetaInfo := { Version := "0", TimeStamp := now.UTC } } := by
  obtain ⟨captures, desired⟩ := nmpolicy
  cases desired <;> rfl

/-- C1 (passthrough): for every byte buffer `B`, every current state and every
empty input cache, `GenerateState` on a policy with desired state `B` and no
captures returns no error and a generated state whose desired state holds
exactly the bytes of `B` in the same order, whose cache is empty and whose
version is "0". -/
theorem GenerateState_passthrough (B : NMState) (captures : GoMap String) (currentState : NMState)
    (cache : CachedState) (now : Time)
    (hcaptures : mapLen captures = 0) (hcache : mapLen cache.Capture = 0) :
    ∃ g, GenerateState { Capture := captures, DesiredState := B } currentState cache now = Except.ok g
      ∧ sliceBytes g.DesiredState = sliceBytes B
      ∧ g.Cache = NoCache ∧ mapLen g.Cache.Capture = 0
      ∧ g.MetaInfo.Version = "0" := by
  refine ⟨_, GenerateState_eq _ currentState cache now, ?_, rfl, rfl, rfl⟩
  exact sliceBytes_goAppend_nil _

/-- The passthrough property on the input of `testPolicyWithOnlyDesiredState`:
the desired state is the text that is no legal document. -/
theorem GenerateState_passthrough_witness :
    mapLen (none : GoMap String) = 0 ∧ mapLen NoCache.Capture = 0 ∧
    ∃ g, GenerateState { Capture := none, DesiredState := notYamlData } none NoCache sampleNow = Except.ok g
      ∧ sliceBytes g.DesiredState = sliceBytes notYamlData
      ∧ g.Cache = NoCache ∧ mapLen g.Cache.Capture = 0
      ∧ g.MetaInfo.Version = "0" :=
  ⟨rfl, rfl, GenerateState_passthrough notYamlData none none NoCache sampleNow rfl rfl⟩

/-- C2 (cache trust), evaluated on the input of
`testPolicyWithCachedCaptureAndDesiredStateWithoutRef`: the prior cache holds
an entry for `cap0`, the call succeeds, and the cache it returns has no entry
for `cap0` and differs from the input cache. -/
theorem GenerateState_drops_cached_capture :
    mapLookup cachedCaptureCache.Capture "cap0"
        = some { State := bytesOf "some captured state", MetaInfo := MetaInfo.zeroValue } ∧
    ∃ g, GenerateState cachedCaptureSpec none cachedCaptureCache sampleNow = Except.ok g
      ∧ mapLookup g.Cache.Capture "cap0" = none
      ∧ g.Cache ≠ cachedCaptureCache
      ∧ resetTimeStamp g ≠
          { Cache := cachedCaptureCache, DesiredState := notYamlData,
            MetaInfo := { Version := "0", TimeStamp := Time.zero } } :=
  ⟨by decide, _, rfl, by decide, by decide, by decide⟩

/-- C3 (filter semantics), evaluated on the input of
`testPolicyWithFilterCaptureAndDesiredStateWithoutRef`: with the capture
`cap0` over a current state of two routes and an empty prior cache, the call
succeeds and returns the template as desired state, but the cache it returns
is the empty cache: it holds no entry for `cap0`, so no document with the
default route. -/
theorem GenerateState_filter_capture_unresolved :
    mapLookup filterCaptureSpec.Capture "cap0" = some defaultRouteExpr ∧
    ∃ g, GenerateState filterCaptureSpec twoRoutesData CachedState.zeroValue sampleNow = Except.ok g
      ∧ g.DesiredState = twoRoutesData
      ∧ g.Cache.Capture = none
      ∧ mapLookup g.Cache.Capture "cap0" = none :=
  ⟨by decide, _, rfl, rfl, rfl, rfl⟩

/-- C4 (fail-fast), evaluated on a policy with one capture whose expression
has unbalanced quotes and one capture with a valid expression, neither in the
prior cache: the call returns a generated state and no error. -/
theorem GenerateState_malformed_capture_no_error :
    mapLookup malformedCaptureSpec.Capture "cap0" = some "routes.running.destination==\"0.0.0.0/0" ∧
    unbalancedQuotes "routes.running.destination==\"0.0.0.0/0" = true ∧
    unbalancedQuotes defaultRouteExpr = false ∧
    mapLookup NoCache.Capture "cap0" = none ∧
    ∃ g, GenerateState malformedCaptureSpec twoRoutesData NoCache sampleNow = Except.ok g
      ∧ g.DesiredState = twoRoutesData ∧ g.Cache = NoCache :=
  ⟨by decide, by decide, by decide, rfl, _, rfl, rfl, rfl⟩

/-- C5 (shared generation stamp), evaluated on the input of
`testGenerateUniqueTimestamps`: `cap0` is a capture of the policy that is not
in the prior cache, the call succeeds, and the cache it returns has no entry
for `cap0`; reading that entry gives the zero capture state, whose time stamp
is the zero time and not the top-level time stamp. The cached entry `cap1` is
not returned either. -/
theorem GenerateState_fresh_capture_unstamped :
    mapLookup uniqueTimestampsSpec.Capture "cap0" = some defaultRouteExpr ∧
    mapLookup uniqueTimestampsCache.Capture "cap0" = none ∧
    ∃ g, GenerateState uniqueTimestampsSpec oneRouteData uniqueTimestampsCache sampleNow = Except.ok g
      ∧ mapLookup g.Cache.Capture "cap0" = none
      ∧ (captureIndex g.Cache.Capture "cap0").MetaInfo.TimeStamp = Time.zero
      ∧ g.MetaInfo.TimeStamp = sampleNow.UTC
      ∧ (captureIndex g.Cache.Capture "cap0").MetaInfo.TimeStamp ≠ g.MetaInfo.TimeStamp
      ∧ (captureIndex g.Cache.Capture "cap1").MetaInfo
          ≠ (captureIndex uniqueTimestampsCache.Capture "cap1").MetaInfo :=
  ⟨by decide, by decide, _, rfl, by decide, by decide, by decide, by decide, by decide⟩

/-- C6 (empty input): `GenerateState(PolicySpec{}, nil, NoCache())` returns no
error and a generated state whose desired state is nil, whose cache is the
empty cache, equal to the zero `CachedState`, and whose version is "0"; after
`resetTimeStamp` it is `GeneratedState{MetaInfo: {Version: "0"}}`. -/
theorem GenerateState_empty_policy (now : Time) :
    ∃ g, GenerateState PolicySpec.zeroValue none NoCache now = Except.ok g
      ∧ g.DesiredState = none
      ∧ g.Cache = NoCache ∧ g.Cache = CachedState.zeroValue
      ∧ g.MetaInfo.Version = "0"
      ∧ resetTimeStamp g =
          { Cache := CachedState.zeroValue, DesiredState := none,
            MetaInfo := { Version := "0", TimeStamp := Time.zero } } :=
  ⟨_, rfl, rfl, rfl, rfl, rfl, rfl⟩

/-- C7 (metadata): with the clock reading `now` as an input, every call of
`GenerateState` succeeds, and every successful call returns top-level meta
information whose version is "0" and whose time stamp is `now` expressed in
UTC: the same instant, with the UTC location. Hence the time stamp is not the
zero time whenever `now` is not the zero time. -/
theorem GenerateState_metaInfo (nmpolicy : PolicySpec) (currentState : NMState)
    (cache : CachedState) (now : Time) :
    (∃ g, GenerateState nmpolicy currentState cache now = Except.ok g) ∧
    ∀ g, GenerateState nmpolicy currentState cache now = Except.ok g →
      g.MetaInfo.Version = "0"
      ∧ g.MetaInfo.TimeStamp = now.UTC
      ∧ g.MetaInfo.TimeStamp.Equal now = true
      ∧ g.MetaInfo.TimeStamp.loc = none
      ∧ (now.IsZero = false → g.MetaInfo.TimeStamp.IsZero = false ∧ g.MetaInfo.TimeStamp ≠ Time.zero) := by
  refine ⟨⟨_, GenerateState_eq nmpolicy currentState cache now⟩, ?_⟩
  intro g hg
  rw [GenerateState_eq] at hg
  cases hg
  refine ⟨rfl, rfl, Time.Equal_UTC now, rfl, ?_⟩
  intro hnow
  refine ⟨by rw [Time.IsZero_UTC]; exact hnow, ?_⟩
  intro hzero
  have hz : now.UTC.IsZero = true := by
    have h : now.UTC = Time.zero := hzero
    rw [h]; rfl
  rw [Time.IsZero_UTC, hnow] at hz
  exact Bool.noConfusion hz

/-- The metadata of the state generated for the policy of
`testGenerateUniqueTimestamps` at a clock reading that is not the zero time. -/
theorem GenerateState_metaInfo_witness :
    ∃ g, GenerateState uniqueTimestampsSpec oneRouteData uniqueTimestampsCache sampleNow = Except.ok g
      ∧ g.MetaInfo.Version = "0" ∧ g.MetaInfo.TimeStamp = sampleNow.UTC
      ∧ g.MetaInfo.TimeStamp.IsZero = false :=
  ⟨_, rfl,
    ((GenerateState_metaInfo uniqueTimestampsSpec oneRouteData uniqueTimestampsCache sampleNow).2 _ rfl).1,
    rfl, by decide⟩

/-- C8 (determinism): with the clock reading as an input, two calls of
`GenerateState` whose policies, current states and prior caches are equal as
Go values (capture maps with the same bindings, in whatever order they are
listed; buffers with the same bytes) and whose clock readings are equal have
the same outcome: both return no error and the same generated state, with
byte-identical desired state (the bytes of the desired state of the policy),
equal cache and the clock reading in UTC as time stamp. -/
theorem GenerateState_deterministic (spec1 spec2 : PolicySpec) (cur1 cur2 : NMState)
    (cache1 cache2 : CachedState) (now1 now2 : Time)
    (hcaptures : mapEqual spec1.Capture spec2.Capture = true)
    (hdesired : bytesEqual spec1.DesiredState spec2.DesiredState = true)
    (hcur : bytesEqual cur1 cur2 = true)
    (hcache : mapEqual cache1.Capture cache2.Capture = true)
    (hnow : now1 = now2) :
    ∃ g, GenerateState spec1 cur1 cache1 now1 = Except.ok g
      ∧ GenerateState spec2 cur2 cache2 now2 = Except.ok g
      ∧ sliceBytes g.DesiredState = sliceBytes spec1.DesiredState
      ∧ g.MetaInfo.TimeStamp = now1.UTC := by
  subst hnow
  rw [bytesEqual_iff] at hdesired
  refine ⟨_, GenerateState_eq spec1 cur1 cache1 now1, ?_, sliceBytes_goAppend_nil _, rfl⟩
  rw [GenerateState_eq spec2 cur2 cache2 now1, hdesired]

/-- Determinism on the input of `testGenerateUniqueTimestamps` and on the same
input written differently: the capture map listed in the other order, an
empty current state given once as the nil buffer and once as an empty buffer.
The two policies differ as terms and are equal as Go values. -/
theorem GenerateState_deterministic_witness :
    uniqueTimestampsSpec.Capture ≠ uniqueTimestampsSpecSwapped.Capture ∧
    mapEqual uniqueTimestampsSpec.Capture uniqueTimestampsSpecSwapped.Capture = true ∧
    bytesEqual uniqueTimestampsSpec.DesiredState uniqueTimestampsSpecSwapped.DesiredState = true ∧
    bytesEqual none (some []) = true ∧
    mapEqual uniqueTimestampsCache.Capture uniqueTimestampsCache.Capture = true ∧
    ∃ g, GenerateState uniqueTimestampsSpec none uniqueTimestampsCache sampleNow = Except.ok g
      ∧ GenerateState uniqueTimestampsSpecSwapped (some []) uniqueTimestampsCache sampleNow = Except.ok g
      ∧ sliceBytes g.DesiredState = sliceBytes uniqueTimestampsSpec.DesiredState
      ∧ g.MetaInfo.TimeStamp = sampleNow.UTC :=
  ⟨by decide, by decide, by simp [bytesEqual, uniqueTimestampsSpec, uniqueTimestampsSpecSwapped],
    by decide, by decide,
    GenerateState_deterministic uniqueTimestampsSpec uniqueTimestampsSpecSwapped none (some [])
      uniqueTimestampsCache uniqueTimestampsCache sampleNow sampleNow
      (by decide) (by simp [bytesEqual, uniqueTimestampsSpec, uniqueTimestampsSpecSwapped])
      (by decide) (by decide) rfl⟩

/-- C9 (input independence): two calls of `GenerateState` with equal desired
state in the policy and equal clock reading, whatever the capture maps, the
current states and the prior caches, return equal results with no error, and
the cache returned is `NoCache()`. -/
theorem GenerateState_input_independent (spec1 spec2 : PolicySpec) (cur1 cur2 : NMState)
    (cache1 cache2 : CachedState) (now1 now2 : Time)
    (hdesired : spec1.DesiredState = spec2.DesiredState) (hnow : now1 = now2) :
    ∃ g, GenerateState spec1 cur1 cache1 now1 = Except.ok g
      ∧ GenerateState spec2 cur2 cache2 now2 = Except.ok g
      ∧ g.Cache = NoCache := by
  subst hnow
  refine ⟨_, GenerateState_eq spec1 cur1 cache1 now1, ?_, rfl⟩
  rw [GenerateState_eq spec2 cur2 cache2 now1, hdesired]

/-- Input independence on two calls that share the desired state and the clock
reading only: one with a capture, a current state and a cached capture, one
without any of them. -/
theorem GenerateState_input_independent_witness :
    cachedCaptureSpec.Capture ≠ (none : GoMap String) ∧ cachedCaptureCache ≠ NoCache ∧
    ∃ g, GenerateState cachedCaptureSpec twoRoutesData cachedCaptureCache sampleNow = Except.ok g
      ∧ GenerateState { Capture := none, DesiredState := notYamlData } none NoCache sampleNow = Except.ok g
      ∧ g.Cache = NoCache :=
  ⟨by decide, by decide,
    GenerateState_input_independent cachedCaptureSpec { Capture := none, DesiredState := notYamlData }
      twoRoutesData none cachedCaptureCache NoCache sampleNow sampleNow rfl rfl⟩

/-- C10 (nil versus empty desired state): the desired state returned by
`GenerateState` is nil exactly when the desired state of the policy has length
0: a nil input gives nil, a non-nil input of length 0 gives nil too, and an
input of length at least 1 gives a non-nil buffer of the same length and
contents. -/
theorem GenerateState_desiredState_nil_iff (nmpolicy : PolicySpec) (currentState : NMState)
    (cache : CachedState) (now : Time) :
    ∃ g, GenerateState nmpolicy currentState cache now = Except.ok g
      ∧ (g.DesiredState = none ↔ sliceLen nmpolicy.DesiredState = 0)
      ∧ (nmpolicy.DesiredState = none → g.DesiredState = none)
      ∧ (nmpolicy.DesiredState = some [] → g.DesiredState = none)
      ∧ (1 ≤ sliceLen nmpolicy.DesiredState →
          ∃ l, g.DesiredState = some l ∧ l.length = sliceLen nmpolicy.DesiredState
            ∧ l = sliceBytes nmpolicy.DesiredState) := by
  refine ⟨_, GenerateState_eq nmpolicy currentState cache now, ?_, ?_, ?_, ?_⟩
  · show goAppend none (sliceBytes nmpolicy.DesiredState) = none ↔ _
    rw [goAppend_nil_eq_none, sliceLen, List.length_eq_zero]
  · intro h
    show goAppend none (sliceBytes nmpolicy.DesiredState) = none
    rw [h]; rfl
  · intro h
    show goAppend none (sliceBytes nmpolicy.DesiredState) = none
    rw [h]; rfl
  · intro h
    show ∃ l, goAppend none (sliceBytes nmpolicy.DesiredState) = some l ∧ _
    unfold sliceLen at h ⊢
    cases hb : sliceBytes nmpolicy.DesiredState with
    | nil => rw [hb] at h; exact absurd h (by decide)
    | cons e es => exact ⟨e :: es, rfl, rfl, rfl⟩

/-- The nil-versus-empty property on three policies: a nil desired state, a
non-nil desired state of length 0 and the text of
`testPolicyWithOnlyDesiredState`. -/
theorem GenerateState_desiredState_nil_iff_witness :
    (∃ g, GenerateState { Capture := none, DesiredState := none } none NoCache sampleNow = Except.ok g
      ∧ g.DesiredState = none) ∧
    (∃ g, GenerateState { Capture := none, DesiredState := some [] } none NoCache sampleNow = Except.ok g
      ∧ g.DesiredState = none) ∧
    (∃ g, GenerateState { Capture := none, DesiredState := notYamlData } none NoCache sampleNow = Except.ok g
      ∧ g.DesiredState = notYamlData ∧ sliceLen g.DesiredState = 33) :=
  ⟨(GenerateState_desiredState_nil_iff { Capture := none, DesiredState := none } none NoCache sampleNow).imp
      (fun _ h => ⟨h.1, h.2.2.1 rfl⟩),
    ⟨_, rfl, rfl⟩, ⟨_, rfl, rfl, by decide⟩⟩

end NMPolicy
